import Mathlib

/-!
# A REST facade over a graph store: handlers of `main.go`

The six request handlers of `src/neo4j/main.go` are embedded as pure functions.
A handler receives its request input (a path parameter, or the outcome of
binding the JSON body) together with the store it talks to, and returns the
ordered list of observable events it causes (sessions opened and closed,
queries run, responses written) and the store state afterwards.

The store is an arbitrary state type `σ` with a `run` function, so the
theorems about a handler hold for every behaviour of the graph database.
-/

namespace MovieApi

/-! ## Dynamic values, JSON documents, Go slices -/

/-- A dynamically typed value: a query parameter or a column of a result row
(`interface{}` in the source). -/
inductive Value where
  | null
  | int (n : Int)
  | str (s : String)
  | bool (b : Bool)
  deriving DecidableEq, Repr

/-- A JSON document as written by `c.JSON`. -/
inductive Json where
  | null
  | num (n : Int)
  | str (s : String)
  | arr (items : List Json)
  | obj (fields : List (String × Json))

/-- A Go slice: `nil` until the first `append`. -/
inductive Slice (α : Type) where
  | nil
  | of (items : List α)
  deriving DecidableEq, Repr

/-- Go's `append(s, x)`. -/
def Slice.append {α : Type} : Slice α → α → Slice α
  | .nil, x => .of [x]
  | .of xs, x => .of (xs ++ [x])

/-- The elements of a slice, `nil` having none. -/
def Slice.toList {α : Type} : Slice α → List α
  | .nil => []
  | .of xs => xs

/-- The slice obtained from a nil slice by appending the elements one by one. -/
def Slice.ofList {α : Type} (xs : List α) : Slice α := xs.foldl Slice.append .nil

/-- Go's `encoding/json` rendering of a slice: a nil slice is `null`,
any other slice is an array. -/
def Slice.toJson {α : Type} (enc : α → Json) : Slice α → Json
  | .nil => Json.null
  | .of xs => Json.arr (xs.map enc)

/-- The `Movie` struct of the source. -/
structure Movie where
  ID : Int
  Released : Int
  Tagline : String
  Title : String
  deriving DecidableEq, Repr

/-- JSON rendering of a `Movie`, fields in declaration order under their tags. -/
def Movie.toJson (m : Movie) : Json :=
  .obj [("id", .num m.ID), ("released", .num m.Released),
        ("tagline", .str m.Tagline), ("title", .str m.Title)]

/-- The body `gin.H{key: value}`. -/
def H (key : String) (value : Json) : Json := .obj [(key, value)]

/-- Value stored under a key of a JSON object. -/
def Json.field? (key : String) : Json → Option Json
  | .obj fields => (fields.find? (fun kv => kv.1 == key)).map Prod.snd
  | _ => none

/-! ## The store interface -/

/-- Access mode of a session. -/
inductive AccessMode where
  | read
  | write
  deriving DecidableEq, Repr

/-- A query parameter map, in insertion order. -/
abbrev Params := List (String × Value)

/-- Go's `params[key] = v`. -/
def Params.set (ps : Params) (key : String) (v : Value) : Params :=
  if ps.any (fun kv => kv.1 == key) then
    ps.map (fun kv => if kv.1 == key then (key, v) else kv)
  else ps ++ [(key, v)]

/-- A result row. -/
abbrev Record := List Value

/-- What the store answers to a query that it accepted: the rows it will
deliver, the error the stream ends with (if any), and the summary counter of
deleted nodes. -/
structure Stream where
  rows : List Record
  failure : Option String
  nodesDeleted : Nat
  deriving DecidableEq, Repr

/-- The driver's result cursor (`neo4j.Result`). -/
structure Result where
  pending : List Record
  failure : Option String
  nodesDeleted : Nat
  current : Option Record
  err : Option String

/-- Cursor over a fresh stream. -/
def Stream.cursor (st : Stream) : Result :=
  { pending := st.rows, failure := st.failure, nodesDeleted := st.nodesDeleted,
    current := none, err := none }

/-- The method `result.Next()`: advance to the next row; when the rows are
exhausted report `false` and expose the stream failure through `Err()`. -/
def Result.Next (r : Result) : Bool × Result :=
  match r.pending with
  | rec :: rest => (true, { r with pending := rest, current := some rec })
  | [] => (false, { r with current := none, err := r.failure })

/-- The method `result.Record()`: the row `Next` stopped at. -/
def Result.Record (r : Result) : Option Record := r.current

/-- The method `result.Err()`. -/
def Result.Err (r : Result) : Option String := r.err

/-- The method `result.Consume()`: drain the stream and return the summary
(here its nodes-deleted counter) or the stream failure. -/
def Result.Consume (r : Result) : Except String Nat :=
  match r.err with
  | some e => .error e
  | none =>
    match r.failure with
    | some e => .error e
    | none => .ok r.nodesDeleted

/-- The method `record.GetByIndex(i)`: `none` stands for the index-out-of-range panic. -/
def GetByIndex (rec : Record) (i : Nat) : Option Value := rec.get? i

/-- The store seen through `session.Run`: either an error or a stream, and the
store state after the query. -/
abbrev Runner (σ : Type) := σ → String → Params → Except String Stream × σ

/-- Observable steps of a handler. -/
inductive Event where
  | newSession (mode : AccessMode)
  | run (query : String) (params : Params)
  | json (status : Nat) (body : Json)
  | abortWithStatus (status : Nat)
  | close

/-- Responses written, in order: status and body (no body for the recovery
middleware's bare status). -/
def responses : List Event → List (Nat × Option Json)
  | [] => []
  | .json st b :: es => (st, some b) :: responses es
  | .abortWithStatus st :: es => (st, none) :: responses es
  | _ :: es => responses es

/-- Queries sent to the store, in order. -/
def queries : List Event → List (String × Params)
  | [] => []
  | .run q ps :: es => (q, ps) :: queries es
  | _ :: es => queries es

/-- Sessions opened, in order. -/
def sessions : List Event → List AccessMode
  | [] => []
  | .newSession m :: es => m :: sessions es
  | _ :: es => sessions es

/-! ## `strconv.ParseInt(s, 10, 64)` -/

/-- The two error kinds of `strconv`. -/
inductive NumError where
  | ErrSyntax
  | ErrRange
  deriving DecidableEq, Repr

/-- Largest `uint64`. -/
def maxUint64 : Nat := 2 ^ 64 - 1

/-- Cutoff of `ParseUint` in base 10: the smallest `n` with `n * 10 > maxUint64`. -/
def uintCutoff : Nat := maxUint64 / 10 + 1

/-- Go's `lower(c)` on a byte: `c | ('x' - 'X')`. -/
def lower (c : Nat) : Nat := c ||| 0x20

/-- The digit switch of `ParseUint`: the value of a byte as a digit, `none`
for the default branch (a syntax error). -/
def digitOf (b : Nat) : Option Nat :=
  if 48 ≤ b ∧ b ≤ 57 then some (b - 48)
  else if 97 ≤ lower b ∧ lower b ≤ 122 then some (lower b - 97 + 10)
  else none

/-- The digit loop of `ParseUint` for base 10 and 64 bits. A character is
looked at through its code point; every byte of a non-ASCII character is
above `'z'` and takes the same default branch. -/
def parseUintLoop : List Char → Nat → Nat × Option NumError
  | [], n => (n, none)
  | c :: cs, n =>
    match digitOf c.toNat with
    | none => (0, some .ErrSyntax)
    | some d =>
      if d ≥ 10 then (0, some .ErrSyntax)
      else if n ≥ uintCutoff then (maxUint64, some .ErrRange)
      else
        let n1 := n * 10 + d
        if n1 > maxUint64 then (maxUint64, some .ErrRange)
        else parseUintLoop cs n1

/-- Go's `strconv.ParseUint(s, 10, 64)`. -/
def ParseUint (s : List Char) : Nat × Option NumError :=
  if s = [] then (0, some .ErrSyntax) else parseUintLoop s 0

/-- Go's `strconv.ParseInt(s, 10, 64)`: value and error. -/
def ParseInt (s : String) : Int × Option NumError :=
  match s.data with
  | [] => (0, some .ErrSyntax)
  | c :: rest =>
    let neg := c = '-'
    let digits := if c = '+' ∨ c = '-' then rest else c :: rest
    match ParseUint digits with
    | (_, some .ErrSyntax) => (0, some .ErrSyntax)
    | (un, _) =>
      let cutoff : Nat := 2 ^ 63
      if ¬ neg ∧ un ≥ cutoff then ((cutoff : Int) - 1, some .ErrRange)
      else if neg ∧ un > cutoff then (-(cutoff : Int), some .ErrRange)
      else if neg then (-(un : Int), none) else ((un : Int), none)

/-! ## Helpers shared by the handlers -/

/-- The type assertion `v.(int64)`. -/
def asInt64 : Value → Option Int
  | .int n => some n
  | _ => none

/-- The type assertion `v.(string)`. -/
def asString : Value → Option String
  | .str s => some s
  | _ => none

/-- How a block of handler code is left early: by `c.JSON(..); return`, or by a panic. -/
inductive Exit where
  | returned (status : Nat) (body : Json)
  | panicked

/-- The expression `record.GetByIndex(i)`, panicking when the index is out of range. -/
def column (record : Record) (i : Nat) : Except Exit Value :=
  match GetByIndex record i with
  | some v => .ok v
  | none => .error .panicked

/-- The unchecked assertion `record.GetByIndex(i).(int64)`. -/
def mustInt64 (record : Record) (i : Nat) : Except Exit Int :=
  match column record i with
  | .error e => .error e
  | .ok v =>
    match asInt64 v with
    | some n => .ok n
    | none => .error .panicked

/-- The unchecked assertion `record.GetByIndex(i).(string)`. -/
def mustString (record : Record) (i : Nat) : Except Exit String :=
  match column record i with
  | .error e => .error e
  | .ok v =>
    match asString v with
    | some x => .ok x
    | none => .error .panicked

/-- The body `gin.H{"error": msg}`. -/
def errorBody (msg : String) : Json := H "error" (.str msg)

/-- Go's `strings.HasSuffix`. -/
def HasSuffix (s suffix : String) : Bool := suffix.data.isSuffixOf s.data

/-- Go's `strings.TrimSuffix`. -/
def TrimSuffix (s suffix : String) : String :=
  if HasSuffix s suffix then ⟨s.data.take (s.data.length - suffix.data.length)⟩ else s

/-- The verb `%d` of `fmt.Sprintf` on an integer. -/
def fmtInt (n : Int) : String := toString n

/-- What the recovery middleware installed by `gin.Default()` does with a
panicking handler: the deferred `session.Close()` has run, then the bare
status 500 is written. -/
def recovered : List Event := [.close, .abortWithStatus 500]

/-- The trailing check `if err = result.Err(); err != nil { c.JSON(500, ..) }`. -/
def errCheck (result : Result) : List Event :=
  match result.Err with
  | some e => [.json 500 (errorBody e)]
  | none => []

/-! ## `getMovies` -/

/-- Query of `getMovies`. -/
def listMoviesQuery : String :=
  "MATCH (n:Movie) RETURN id(n), n.released, n.tagline, n.title"

/-- One iteration of the loop of `getMovies`: the four checked assertions and
the construction of the `Movie`. -/
def getMoviesRow (record : Record) : Except Exit Movie :=
  match column record 0 with
  | .error e => .error e
  | .ok v0 =>
  match asInt64 v0 with
  | none => .error (.returned 500 (errorBody "Failed to cast id to int64"))
  | some id =>
  match column record 1 with
  | .error e => .error e
  | .ok v1 =>
  match asInt64 v1 with
  | none => .error (.returned 500 (errorBody "Failed to cast released to int"))
  | some released =>
  match column record 2 with
  | .error e => .error e
  | .ok v2 =>
  match asString v2 with
  | none => .error (.returned 500 (errorBody "Failed to cast tagline to string"))
  | some tagline =>
  match column record 3 with
  | .error e => .error e
  | .ok v3 =>
  match asString v3 with
  | none => .error (.returned 500 (errorBody "Failed to cast title to string"))
  | some title =>
    .ok { ID := id, Released := released, Tagline := tagline, Title := title }

/-- The loop `for result.Next() { .. }` of `getMovies` over the rows still to come. -/
def getMoviesLoop : List Record → Slice Movie → Except Exit (Slice Movie)
  | [], movies => .ok movies
  | record :: rest, movies =>
    match getMoviesRow record with
    | .error e => .error e
    | .ok movie => getMoviesLoop rest (movies.append movie)

/-- The handler `getMovies`. -/
def getMovies {σ : Type} (run : Runner σ) (s : σ) : List Event × σ :=
  match run s listMoviesQuery [] with
  | (.error e, s1) =>
    ([.newSession .read, .run listMoviesQuery [], .json 500 (errorBody e), .close], s1)
  | (.ok stream, s1) =>
    let head := [Event.newSession .read, .run listMoviesQuery []]
    match getMoviesLoop stream.rows .nil with
    | .error (.returned st body) => (head ++ [.json st body, .close], s1)
    | .error .panicked => (head ++ recovered, s1)
    | .ok movies =>
      match stream.failure with
      | some e => (head ++ [.json 500 (errorBody e), .close], s1)
      | none => (head ++ [.json 200 (H "movies" (movies.toJson Movie.toJson)), .close], s1)

/-! ## `getPeople` -/

/-- Query of `getPeople`. -/
def listPeopleQuery : String := "Match (n:Person) return n.name"

/-- The loop of `getPeople`: `persons = append(persons, record.GetByIndex(0).(string))`. -/
def getPeopleLoop : List Record → Slice String → Except Exit (Slice String)
  | [], persons => .ok persons
  | record :: rest, persons =>
    match mustString record 0 with
    | .error e => .error e
    | .ok name => getPeopleLoop rest (persons.append name)

/-- The handler `getPeople`. -/
def getPeople {σ : Type} (run : Runner σ) (s : σ) : List Event × σ :=
  match run s listPeopleQuery [] with
  | (.error e, s1) =>
    ([.newSession .read, .run listPeopleQuery [], .json 500 (errorBody e), .close], s1)
  | (.ok stream, s1) =>
    let head := [Event.newSession .read, .run listPeopleQuery []]
    match getPeopleLoop stream.rows .nil with
    | .error (.returned st body) => (head ++ [.json st body, .close], s1)
    | .error .panicked => (head ++ recovered, s1)
    | .ok persons =>
      match stream.failure with
      | some e => (head ++ [.json 500 (errorBody e), .close], s1)
      | none => (head ++ [.json 200 (H "humuus" (persons.toJson Json.str)), .close], s1)

/-! ## `createMovie` -/

/-- Query of `createMovie`. -/
def createQuery : String :=
  "CREATE (n:Movie {title: $title, tagline: $tagline, released: $released})"

/-- The anonymous struct `updateMovie` binds the JSON body to. -/
structure UpdateBody where
  ID : Int
  Title : String
  Tagline : String
  Released : Int
  deriving DecidableEq, Repr

/-- Lookup query of `updateMovie`. -/
def lookupQuery : String :=
  "MATCH (n:Movie) WHERE ID(n) = $id RETURN n.title, n.tagline, n.released"

/-- The write query text `updateMovie` assembles. -/
def updateQuery (update : UpdateBody) : String :=
  let query := "MATCH (n:Movie) WHERE ID(n) = $id SET "
  let query := if update.Title ≠ "" then query ++ "n.title = $newTitle, " else query
  let query := if update.Tagline ≠ "" then query ++ "n.tagline = $newTagline, " else query
  let query := if update.Released ≠ 0 then query ++ "n.released = $newReleased, " else query
  TrimSuffix query ", "

/-- The parameter map `updateMovie` assembles. -/
def updateParams (update : UpdateBody) : Params :=
  let params : Params := [("id", .int update.ID)]
  let params := if update.Title ≠ "" then params.set "newTitle" (.str update.Title) else params
  let params :=
    if update.Tagline ≠ "" then params.set "newTagline" (.str update.Tagline) else params
  let params :=
    if update.Released ≠ 0 then params.set "newReleased" (.int update.Released) else params
  params

/-- The response message `updateMovie` assembles. -/
def updateMessage (update : UpdateBody) (oldTitle oldTagline : String) (oldReleased : Int) :
    String :=
  let message := "Movie details updated for ID " ++ fmtInt update.ID ++ ":"
  let message :=
    if update.Title ≠ "" then
      message ++ ("\n- Title changed from \"" ++ oldTitle ++ "\" to \"" ++ update.Title ++ "\"")
    else message
  let message :=
    if update.Tagline ≠ "" then
      message ++
        ("\n- Tagline changed from \"" ++ oldTagline ++ "\" to \"" ++ update.Tagline ++ "\"")
    else message
  let message :=
    if update.Released ≠ 0 then
      message ++ ("\n- Released year changed from \"" ++ fmtInt oldReleased ++ "\" to \"" ++
        fmtInt update.Released ++ "\"")
    else message
  message

/-- The three unchecked assertions that read the old values. -/
def oldValues (record : Record) : Except Exit (String × String × Int) :=
  match mustString record 0 with
  | .error e => .error e
  | .ok oldTitle =>
  match mustString record 1 with
  | .error e => .error e
  | .ok oldTagline =>
  match mustInt64 record 2 with
  | .error e => .error e
  | .ok oldReleased => .ok (oldTitle, oldTagline, oldReleased)

/-- The handler `updateMovie`; `bound` is the outcome of `c.ShouldBindJSON(&update)`. -/
def updateMovie {σ : Type} (run : Runner σ) (bound : Except String UpdateBody) (s : σ) :
    List Event × σ :=
  match bound with
  | .error e => ([.json 400 (errorBody e)], s)
  | .ok update =>
    let lookupParams : Params := [("id", .int update.ID)]
    let head := [Event.newSession .write, .run lookupQuery lookupParams]
    match run s lookupQuery lookupParams with
    | (.error e, s1) => (head ++ [.json 500 (errorBody e), .close], s1)
    | (.ok stream, s1) =>
      let (more, result) := stream.cursor.Next
      if ¬ more then (head ++ [.json 404 (errorBody "Movie not found"), .close], s1)
      else
        match result.Record with
        | none => (head ++ recovered, s1)
        | some record =>
          match oldValues record with
          | .error _ => (head ++ recovered, s1)
          | .ok (oldTitle, oldTagline, oldReleased) =>
            let query := updateQuery update
            let params := updateParams update
            match run s1 query params with
            | (.error e, s2) =>
              (head ++ [.run query params, .json 500 (errorBody e), .close], s2)
            | (.ok _, s2) =>
              (head ++ [.run query params,
                .json 200 (H "message"
                  (.str (updateMessage update oldTitle oldTagline oldReleased))),
                .close], s2)

/-! ## `getMovieByID` -/

/-- Query of `getMovieByID`. -/
def getQuery : String :=
  "MATCH (n:Movie) WHERE id(n) = $id RETURN id(n), n.released, n.tagline, n.title"

/-- The struct literal of `getMovieByID`: four unchecked assertions. -/
def movieOfRecord (record : Record) : Except Exit Movie :=
  match mustInt64 record 0 with
  | .error e => .error e
  | .ok id =>
  match mustInt64 record 1 with
  | .error e => .error e
  | .ok released =>
  match mustString record 2 with
  | .error e => .error e
  | .ok tagline =>
  match mustString record 3 with
  | .error e => .error e
  | .ok title => .ok { ID := id, Released := released, Tagline := tagline, Title := title }

/-- The handler `getMovieByID`; `idParam` is `c.Param("id")`. -/
def getMovieByID {σ : Type} (run : Runner σ) (idParam : String) (s : σ) : List Event × σ :=
  match ParseInt idParam with
  | (_, some _) => ([.json 400 (errorBody "Invalid movie ID")], s)
  | (id, none) =>
    let params : Params := [("id", .int id)]
    let head := [Event.newSession .read, .run getQuery params]
    match run s getQuery params with
    | (.error e, s1) => (head ++ [.json 500 (errorBody e), .close], s1)
    | (.ok stream, s1) =>
      let (more, result) := stream.cursor.Next
      if more then
        match result.Record with
        | none => (head ++ recovered, s1)
        | some record =>
          match movieOfRecord record with
          | .error _ => (head ++ recovered, s1)
          | .ok movie =>
            (head ++ [.json 200 (H "movie" movie.toJson)] ++ errCheck result ++ [.close], s1)
      else
        (head ++ [.json 404 (errorBody "Movie not found")] ++ errCheck result ++ [.close], s1)

/-! ## `deleteMovieByID` -/

/-- Query of `deleteMovieByID`. -/
def deleteQuery : String := "MATCH (n:Movie) WHERE id(n) = $id DELETE n"

/-- The handler `deleteMovieByID`; `idParam` is `c.Param("id")`. -/
def deleteMovieByID {σ : Type} (run : Runner σ) (idParam : String) (s : σ) :
    List Event × σ :=
  match ParseInt idParam with
  | (_, some _) => ([.json 400 (errorBody "Invalid movie ID")], s)
  | (id, none) =>
    let params : Params := [("id", .int id)]
    let head := [Event.newSession .write, .run deleteQuery params]
    match run s deleteQuery params with
    | (.error e, s1) => (head ++ [.json 500 (errorBody e), .close], s1)
    | (.ok stream, s1) =>
      match stream.cursor.Consume with
      | .error e => (head ++ [.json 500 (errorBody e), .close], s1)
      | .ok nodesDeleted =>
        if nodesDeleted = 0 then
          (head ++ [.json 404 (errorBody "Movie not found"), .close], s1)
        else (head ++ [.json 200 (H "status" (.str "deleted")), .close], s1)

/-! ## Decimal integers, as the specification speaks of them -/

/-- A decimal digit `0`..`9`. -/
def isDecimalDigit (c : Char) : Bool := decide (48 ≤ c.toNat ∧ c.toNat ≤ 57)

/-- Digits of a numeral after its optional sign. -/
def unsignedPart : List Char → List Char
  | [] => []
  | c :: rest => if c = '+' ∨ c = '-' then rest else c :: rest

/-- A decimal integer: an optional sign followed by one or more decimal digits. -/
def isDecimalInteger (s : String) : Bool :=
  let ds := unsignedPart s.data
  !ds.isEmpty && ds.all isDecimalDigit

/-- Value of a digit string read in base 10 from the accumulator `n` on,
most significant digit first. -/
def digitsValue (ds : List Char) (n : Nat) : Nat :=
  ds.foldl (fun acc c => acc * 10 + (c.toNat - 48)) n

/-- The integer a decimal numeral denotes. -/
def decimalValue (s : String) : Int :=
  let v : Int := (digitsValue (unsignedPart s.data) 0 : Nat)
  if s.data.head? = some '-' then -v else v

/-! ## Typed rows, as the specification speaks of them -/

/-- Column `i` of the row holds an integer. -/
def holdsInt (r : Record) (i : Nat) : Bool :=
  match r.get? i with
  | some (.int _) => true
  | _ => false

/-- Column `i` of the row holds a string. -/
def holdsString (r : Record) (i : Nat) : Bool :=
  match r.get? i with
  | some (.str _) => true
  | _ => false

/-- A movie row is well typed: id and released are integers, tagline and
title are strings. -/
def movieRowTyped (r : Record) : Bool :=
  holdsInt r 0 && holdsInt r 1 && holdsString r 2 && holdsString r 3

/-- A person row is well typed: the name is a string. -/
def personRowTyped (r : Record) : Bool := holdsString r 0

/-- The integer in column `i`, zero when there is none. -/
def intAt (r : Record) (i : Nat) : Int :=
  match r.get? i with
  | some (.int n) => n
  | _ => 0

/-- The string in column `i`, empty when there is none. -/
def stringAt (r : Record) (i : Nat) : String :=
  match r.get? i with
  | some (.str x) => x
  | _ => ""

/-- The movie a row describes: columns 0..3 read as id, released, tagline, title. -/
def movieOfRow (r : Record) : Movie :=
  { ID := intAt r 0, Released := intAt r 1, Tagline := stringAt r 2, Title := stringAt r 3 }

/-! ## The SET clause, as the specification speaks of it -/

/-- The fields an update request assigns, in the order title, tagline,
released: property name, parameter key and value of each field that is
non-empty / non-zero. -/
def assignedFields (update : UpdateBody) : List (String × String × Value) :=
  (if update.Title ≠ "" then [("title", "newTitle", Value.str update.Title)] else []) ++
  (if update.Tagline ≠ "" then [("tagline", "newTagline", Value.str update.Tagline)] else []) ++
  (if update.Released ≠ 0 then [("released", "newReleased", Value.int update.Released)] else [])

/-- The write query the specification describes: one assignment per assigned
field, separated by `", "`, nothing after the last one. -/
def describedQuery (update : UpdateBody) : String :=
  "MATCH (n:Movie) WHERE ID(n) = $id SET " ++
    ", ".intercalate ((assignedFields update).map (fun f => "n." ++ f.1 ++ " = $" ++ f.2.1))

/-- The parameter map the specification describes: `id` and one key per assigned field. -/
def describedParams (update : UpdateBody) : Params :=
  ("id", Value.int update.ID) :: (assignedFields update).map (fun f => (f.2.1, f.2.2))

/-! ## Typed create payloads -/

/-- A node of the graph: identity, labels, properties. -/
structure Node where
  id : Int
  labels : List String
  props : List (String × Value)
  deriving DecidableEq, Repr

/-- Modelled from the spec: the graph store is an external collaborator whose
engine is not part of the repository. It is taken as "a database holding
labeled nodes, addressable by an internal numeric identifier"; identities are
assigned by the store. -/
structure Graph where
  nodes : List Node
  deriving DecidableEq, Repr

/-- Modelled from the spec: the identity the store assigns to the next node,
above every identity in use ("store-assigned integer identity, uniquely
addresses one node"). -/
def Graph.freshId (g : Graph) : Int :=
  g.nodes.foldl (fun m n => max m (n.id + 1)) 0

/-- Modelled from the spec: value of a property of a node, null when the node
does not have it. -/
def Node.prop (n : Node) (key : String) : Value :=
  (n.props.lookup key).getD .null

/-- Modelled from the spec: the node carries the label `Movie`. -/
def Node.isMovie (n : Node) : Bool := n.labels.contains "Movie"

/-- Modelled from the spec: the row `id(n), n.released, n.tagline, n.title` of a node. -/
def Node.movieRow (n : Node) : Record :=
  [.int n.id, n.prop "released", n.prop "tagline", n.prop "title"]

/-- Modelled from the spec: how the store answers the queries of `createMovie`
("one new Movie node created with exactly those three properties"),
`getMovieByID` ("fetch the node matching the identity") and `getMovies`
("fetch identity, released, tagline, title for every Movie node"). Any other
query text is refused. -/
def Graph.run : Runner Graph := fun g query params =>
  if query = createQuery then
    match params.lookup "title", params.lookup "tagline", params.lookup "released" with
    | some title, some tagline, some released =>
      let props : List (String × Value) :=
        [("title", title), ("tagline", tagline), ("released", released)]
      let node : Node :=
        { id := g.freshId, labels := ["Movie"], props := props.filter (fun kv => kv.2 ≠ .null) }
      (.ok ⟨[], none, 0⟩, { nodes := g.nodes ++ [node] })
    | _, _, _ => (.error "Expected parameter(s): title, tagline, released", g)
  else if query = getQuery then
    match params.lookup "id" with
    | some (.int id) =>
      (.ok ⟨(g.nodes.filter (fun n => n.isMovie && n.id == id)).map Node.movieRow, none, 0⟩, g)
    | _ => (.error "Expected parameter(s): id", g)
  else if query = listMoviesQuery then
    (.ok ⟨(g.nodes.filter Node.isMovie).map Node.movieRow, none, 0⟩, g)
  else (.error "query not supported", g)

/-- A store that holds nothing and never fails: every query is accepted and
yields no row, no error and a nodes-deleted count of zero. -/
def emptyStore : Runner Unit := fun s _ _ => (.ok ⟨[], none, 0⟩, s)

/-- A store that accepts every query and answers it with the given stream. -/
def fixedStore (st : Stream) : Runner Unit := fun s _ _ => (.ok st, s)

/-- Two well-typed movie rows. -/
def typedMovieRows : List Record :=
  [[.int 0, .int 1995, .str "A crime saga", .str "Heat"],
   [.int 1, .int 2010, .str "Dreams within dreams", .str "Inception"]]

/-- Two person rows, the second with a number where the name should be. -/
def illTypedPersonRows : List Record := [[.str "Al Pacino"], [.int 1940]]

/-- A store that answers the movie listing with `typedMovieRows` and every
other query with `illTypedPersonRows`. -/
def listingStore : Runner Unit := fun s query _ =>
  if query = listMoviesQuery then (.ok ⟨typedMovieRows, none, 0⟩, s)
  else (.ok ⟨illTypedPersonRows, none, 0⟩, s)

/-- A store in which the movie looked up exists but has no title: the lookup
row holds null in the title column. -/
def untitledMovieStore : Runner Unit :=
  fixedStore ⟨[[.null, .str "Dreams within dreams", .int 2010]], none, 0⟩

/-- A store that answers the lookup of `updateMovie` with a typed movie row
and refuses every other query. -/
def writeRefusingStore : Runner Unit := fun s query _ =>
  if query = lookupQuery then
    (.ok ⟨[[.str "Inception", .str "Dreams within dreams", .int 2010]], none, 0⟩, s)
  else (.error "database is read-only", s)

/-! ## Facts about `ParseInt` -/

theorem maxUint64_eq : maxUint64 = 18446744073709551615 := by decide

theorem uintCutoff_eq : uintCutoff = 1844674407370955162 := by decide

theorem digitOf_of_digit {b : Nat} (h : 48 ≤ b ∧ b ≤ 57) : digitOf b = some (b - 48) := by
  simp [digitOf, h]

theorem digit_of_digitOf {b d : Nat} (h : digitOf b = some d) (hd : d < 10) :
    48 ≤ b ∧ b ≤ 57 := by
  unfold digitOf at h
  split at h
  · assumption
  · split at h
    · simp at h; omega
    · simp at h

theorem le_digitsValue (ds : List Char) (n : Nat) : n ≤ digitsValue ds n := by
  induction ds generalizing n with
  | nil => simp [digitsValue]
  | cons c cs ih =>
    have h := ih (n * 10 + (c.toNat - 48))
    simp only [digitsValue, List.foldl_cons] at h ⊢
    omega

theorem digitsValue_cons (c : Char) (cs : List Char) (n : Nat) :
    digitsValue (c :: cs) n = digitsValue cs (n * 10 + (c.toNat - 48)) := rfl

theorem parseUintLoop_of_digits (ds : List Char) (hall : ds.all isDecimalDigit = true)
    (n : Nat) (hn : n ≤ maxUint64) :
    parseUintLoop ds n =
      if digitsValue ds n ≤ maxUint64 then (digitsValue ds n, none)
      else (maxUint64, some .ErrRange) := by
  induction ds generalizing n with
  | nil => simp [parseUintLoop, digitsValue, hn]
  | cons c cs ih =>
    simp only [List.all_cons, Bool.and_eq_true] at hall
    obtain ⟨hc, hcs⟩ := hall
    have hc2 : 48 ≤ c.toNat ∧ c.toNat ≤ 57 := by simpa [isDecimalDigit] using hc
    have hge := le_digitsValue cs (n * 10 + (c.toNat - 48))
    rw [digitsValue_cons]
    simp only [parseUintLoop, digitOf_of_digit hc2]
    by_cases h1 : n * 10 + (c.toNat - 48) ≤ maxUint64
    · rw [ih hcs _ h1]
      simp only [maxUint64_eq, uintCutoff_eq] at hge h1 ⊢
      split_ifs <;> first | rfl | omega
    · simp only [maxUint64_eq, uintCutoff_eq] at hge h1 ⊢
      split_ifs <;> first | rfl | omega

theorem digits_of_parseUintLoop (ds : List Char) (n : Nat)
    (h : (parseUintLoop ds n).2 = none) : ds.all isDecimalDigit = true := by
  induction ds generalizing n with
  | nil => rfl
  | cons c cs ih =>
    unfold parseUintLoop at h
    split at h
    · simp at h
    · rename_i d hd
      by_cases h1 : d ≥ 10
      · simp [h1] at h
      · by_cases h2 : n ≥ uintCutoff
        · simp [h1, h2] at h
        · by_cases h3 : n * 10 + d > maxUint64
          · simp [h1, h2, h3] at h
          · simp only [h1, h2, h3, if_false] at h
            have hc := digit_of_digitOf hd (by omega)
            simp only [List.all_cons, Bool.and_eq_true]
            exact ⟨by simpa [isDecimalDigit] using hc, ih _ h⟩

theorem parseUintLoop_range (ds : List Char) (n un : Nat)
    (h : parseUintLoop ds n = (un, some .ErrRange)) : un = maxUint64 := by
  induction ds generalizing n with
  | nil => simp [parseUintLoop] at h
  | cons c cs ih =>
    unfold parseUintLoop at h
    split at h
    · simp at h
    · rename_i d hd
      by_cases h1 : d ≥ 10
      · simp [h1] at h
      · by_cases h2 : n ≥ uintCutoff
        · simp [h1, h2] at h; exact h.symm
        · by_cases h3 : n * 10 + d > maxUint64
          · simp [h1, h2, h3] at h; exact h.symm
          · simp only [h1, h2, h3, if_false] at h
            exact ih _ h

/-- If `ParseInt` reports no error, its input is a decimal integer. -/
theorem isDecimalInteger_of_ParseInt (s : String) (h : (ParseInt s).2 = none) :
    isDecimalInteger s = true := by
  unfold ParseInt at h
  unfold isDecimalInteger
  cases hs : s.data with
  | nil => simp [hs] at h
  | cons c rest =>
    simp only [hs, unsignedPart] at h ⊢
    generalize hds : (if c = '+' ∨ c = '-' then rest else c :: rest) = ds at h ⊢
    unfold ParseUint at h
    by_cases hnil : ds = []
    · simp [hnil] at h
    · simp only [hnil, if_false] at h
      have hloop : (parseUintLoop ds 0).2 = none := by
        rcases hp : parseUintLoop ds 0 with ⟨un, e⟩
        rw [hp] at h
        cases e with
        | none => rfl
        | some k =>
          cases k with
          | ErrSyntax => simp at h
          | ErrRange =>
            have hun := parseUintLoop_range ds 0 un hp
            rw [maxUint64_eq] at hun
            simp only at h
            subst hun
            by_cases hneg : c = '-' <;> simp [hneg] at h
      have := digits_of_parseUintLoop ds 0 hloop
      simp [this, hnil]

/-- On a decimal integer whose value fits in 64 bits `ParseInt` returns that
value and no error. -/
theorem ParseInt_of_decimal (s : String) (hd : isDecimalInteger s = true)
    (hlo : -(2 : Int) ^ 63 ≤ decimalValue s) (hhi : decimalValue s < (2 : Int) ^ 63) :
    ParseInt s = (decimalValue s, none) := by
  unfold isDecimalInteger at hd
  unfold decimalValue at hlo hhi ⊢
  unfold ParseInt
  cases hs : s.data with
  | nil => simp [hs, unsignedPart] at hd
  | cons c rest =>
    simp only [hs, unsignedPart, List.head?_cons, Option.some.injEq] at hd hlo hhi ⊢
    generalize hds : (if c = '+' ∨ c = '-' then rest else c :: rest) = ds at hd hlo hhi ⊢
    simp only [Bool.and_eq_true, Bool.not_eq_true', List.isEmpty_eq_false] at hd
    obtain ⟨hne, hall⟩ := hd
    have hloop := parseUintLoop_of_digits ds hall 0 (by decide)
    unfold ParseUint
    simp only [hne, if_false, hloop]
    rw [maxUint64_eq]
    by_cases hneg : c = '-'
    · simp only [hneg, if_true] at hlo hhi ⊢
      split_ifs
      all_goals first | (simp_all; done) | (simp_all; omega)
    · simp only [hneg, if_false] at hlo hhi ⊢
      split_ifs
      all_goals first | (simp_all; done) | (simp_all; omega)

/-- On a decimal integer whose value does not fit in 64 bits `ParseInt`
reports a range error. -/
theorem ParseInt_of_decimal_beyond (s : String) (hd : isDecimalInteger s = true)
    (hout : decimalValue s < -(2 : Int) ^ 63 ∨ (2 : Int) ^ 63 ≤ decimalValue s) :
    (ParseInt s).2 = some .ErrRange := by
  unfold isDecimalInteger at hd
  unfold decimalValue at hout
  unfold ParseInt
  cases hs : s.data with
  | nil => simp [hs, unsignedPart] at hd
  | cons c rest =>
    simp only [hs, unsignedPart, List.head?_cons, Option.some.injEq] at hd hout ⊢
    generalize hds : (if c = '+' ∨ c = '-' then rest else c :: rest) = ds at hd hout ⊢
    simp only [Bool.and_eq_true, Bool.not_eq_true', List.isEmpty_eq_false] at hd
    obtain ⟨hne, hall⟩ := hd
    have hloop := parseUintLoop_of_digits ds hall 0 (by decide)
    unfold ParseUint
    simp only [hne, if_false, hloop]
    rw [maxUint64_eq]
    by_cases hfit : digitsValue ds 0 ≤ 18446744073709551615
    · simp only [hfit, if_true]
      by_cases hneg : c = '-'
      · simp only [hneg, if_true] at hout
        have h1 : 9223372036854775808 < digitsValue ds 0 := by omega
        simp [hneg, h1]
      · simp only [hneg, if_false] at hout
        have h1 : 9223372036854775808 ≤ digitsValue ds 0 := by omega
        simp [hneg, h1]
    · simp only [hfit, if_false]
      by_cases hneg : c = '-' <;> simp [hneg]

/-! ## Claims -/

/-- C1: for every path parameter that is not a decimal integer, `getMovieByID`
and `deleteMovieByID` each write the single response 400
`{"error": "Invalid movie ID"}`, open no session, run no query and leave the
store untouched. -/
theorem non_numeric_id_is_rejected_before_the_store {σ : Type} (run : Runner σ) (s : σ)
    (idParam : String) (h : isDecimalInteger idParam = false) :
    getMovieByID run idParam s = ([.json 400 (errorBody "Invalid movie ID")], s) ∧
    deleteMovieByID run idParam s = ([.json 400 (errorBody "Invalid movie ID")], s) ∧
    sessions (getMovieByID run idParam s).1 = [] ∧
    queries (getMovieByID run idParam s).1 = [] ∧
    sessions (deleteMovieByID run idParam s).1 = [] ∧
    queries (deleteMovieByID run idParam s).1 = [] := by
  have herr : ∃ v e, ParseInt idParam = (v, some e) := by
    rcases hp : ParseInt idParam with ⟨v, e⟩
    cases e with
    | some e => exact ⟨v, e, rfl⟩
    | none =>
      have := isDecimalInteger_of_ParseInt idParam (by rw [hp])
      rw [h] at this
      cases this
  obtain ⟨v, e, hp⟩ := herr
  have hg : getMovieByID run idParam s = ([.json 400 (errorBody "Invalid movie ID")], s) := by
    simp [getMovieByID, hp]
  have hdl : deleteMovieByID run idParam s =
      ([.json 400 (errorBody "Invalid movie ID")], s) := by
    simp [deleteMovieByID, hp]
  refine ⟨hg, hdl, ?_, ?_, ?_, ?_⟩ <;> simp [hg, hdl, sessions, queries]

/-- Witness of C1 at the path parameter `abc`. -/
theorem non_numeric_id_is_rejected_before_the_store_witness :
    isDecimalInteger "abc" = false ∧
    getMovieByID emptyStore "abc" () = ([.json 400 (errorBody "Invalid movie ID")], ()) ∧
    deleteMovieByID emptyStore "abc" () = ([.json 400 (errorBody "Invalid movie ID")], ()) ∧
    sessions (getMovieByID emptyStore "abc" ()).1 = [] ∧
    queries (getMovieByID emptyStore "abc" ()).1 = [] ∧
    sessions (deleteMovieByID emptyStore "abc" ()).1 = [] ∧
    queries (deleteMovieByID emptyStore "abc" ()).1 = [] :=
  ⟨by decide, non_numeric_id_is_rejected_before_the_store emptyStore () "abc" (by decide)⟩

/-- C2 as stated fails: `9223372036854775808` is a well-formed decimal integer
and the store holds no node at all, yet both handlers answer 400, not 404. -/
theorem decimal_id_beyond_int64_is_400_not_404 :
    isDecimalInteger "9223372036854775808" = true ∧
    emptyStore () getQuery [("id", .int (decimalValue "9223372036854775808"))] =
      (.ok ⟨[], none, 0⟩, ()) ∧
    emptyStore () deleteQuery [("id", .int (decimalValue "9223372036854775808"))] =
      (.ok ⟨[], none, 0⟩, ()) ∧
    responses (getMovieByID emptyStore "9223372036854775808" ()).1 =
      [(400, some (errorBody "Invalid movie ID"))] ∧
    responses (deleteMovieByID emptyStore "9223372036854775808" ()).1 =
      [(400, some (errorBody "Invalid movie ID"))] ∧
    responses (getMovieByID emptyStore "9223372036854775808" ()).1 ≠
      [(404, some (errorBody "Movie not found"))] ∧
    responses (deleteMovieByID emptyStore "9223372036854775808" ()).1 ≠
      [(404, some (errorBody "Movie not found"))] := by
  refine ⟨by decide, rfl, rfl, rfl, rfl, ?_, ?_⟩
  · intro h
    have h2 : responses (getMovieByID emptyStore "9223372036854775808" ()).1 =
        [(400, some (errorBody "Invalid movie ID"))] := rfl
    rw [h2] at h
    simp at h
  · intro h
    have h2 : responses (deleteMovieByID emptyStore "9223372036854775808" ()).1 =
        [(400, some (errorBody "Invalid movie ID"))] := rfl
    rw [h2] at h
    simp at h

/-- C2, amended: for every path parameter that is a decimal integer, (1) when
its value lies within the signed 64-bit range, `getMovieByID` answers a get
query that yields no row and no error with the single response 404
`{"error": "Movie not found"}`, and `deleteMovieByID` answers a delete query
that reports no error and a nodes-deleted count of zero with the single
response 404 `{"error": "Movie not found"}`; (2) when its value lies outside
that range, both handlers answer 400 `{"error": "Invalid movie ID"}` without
opening a session or running a query. -/
theorem decimal_id_absent_is_404_beyond_int64_is_400 {σ : Type} (run : Runner σ) (s : σ)
    (idParam : String) (hd : isDecimalInteger idParam = true) :
    (-(2 : Int) ^ 63 ≤ decimalValue idParam → decimalValue idParam < (2 : Int) ^ 63 →
      (∀ (s1 : σ) (k : Nat),
        run s getQuery [("id", .int (decimalValue idParam))] = (.ok ⟨[], none, k⟩, s1) →
        getMovieByID run idParam s =
          ([.newSession .read, .run getQuery [("id", .int (decimalValue idParam))],
            .json 404 (errorBody "Movie not found"), .close], s1)) ∧
      (∀ (s2 : σ) (rows : List Record),
        run s deleteQuery [("id", .int (decimalValue idParam))] =
          (.ok ⟨rows, none, 0⟩, s2) →
        deleteMovieByID run idParam s =
          ([.newSession .write, .run deleteQuery [("id", .int (decimalValue idParam))],
            .json 404 (errorBody "Movie not found"), .close], s2))) ∧
    ((decimalValue idParam < -(2 : Int) ^ 63 ∨ (2 : Int) ^ 63 ≤ decimalValue idParam) →
      getMovieByID run idParam s = ([.json 400 (errorBody "Invalid movie ID")], s) ∧
      deleteMovieByID run idParam s = ([.json 400 (errorBody "Invalid movie ID")], s)) := by
  constructor
  · intro hlo hhi
    have hp := ParseInt_of_decimal idParam hd hlo hhi
    constructor
    · intro s1 k hget
      simp [getMovieByID, hp, hget, Stream.cursor, Result.Next, errCheck, Result.Err]
    · intro s2 rows hdel
      simp [deleteMovieByID, hp, hdel, Stream.cursor, Result.Consume]
  · intro hout
    have he := ParseInt_of_decimal_beyond idParam hd hout
    rcases hp : ParseInt idParam with ⟨v, e⟩
    rw [hp] at he
    simp only at he
    subst he
    constructor
    · simp [getMovieByID, hp]
    · simp [deleteMovieByID, hp]

/-- Witness of the amended C2: the path parameter `42` on a store without
nodes gets 404 from both handlers, the path parameter `-9223372036854775809`
gets 400 from both. -/
theorem decimal_id_absent_is_404_beyond_int64_is_400_witness :
    isDecimalInteger "42" = true ∧
    -(2 : Int) ^ 63 ≤ decimalValue "42" ∧ decimalValue "42" < (2 : Int) ^ 63 ∧
    getMovieByID emptyStore "42" () =
      ([.newSession .read, .run getQuery [("id", .int 42)],
        .json 404 (errorBody "Movie not found"), .close], ()) ∧
    deleteMovieByID emptyStore "42" () =
      ([.newSession .write, .run deleteQuery [("id", .int 42)],
        .json 404 (errorBody "Movie not found"), .close], ()) ∧
    isDecimalInteger "-9223372036854775809" = true ∧
    decimalValue "-9223372036854775809" < -(2 : Int) ^ 63 ∧
    getMovieByID emptyStore "-9223372036854775809" () =
      ([.json 400 (errorBody "Invalid movie ID")], ()) ∧
    deleteMovieByID emptyStore "-9223372036854775809" () =
      ([.json 400 (errorBody "Invalid movie ID")], ()) :=
  have inside := (decimal_id_absent_is_404_beyond_int64_is_400 emptyStore () "42"
    (by decide)).1 (by decide) (by decide)
  have beyond := (decimal_id_absent_is_404_beyond_int64_is_400 emptyStore ()
    "-9223372036854775809" (by decide)).2 (Or.inl (by decide))
  ⟨by decide, by decide, by decide, inside.1 () 0 rfl, inside.2 () [] rfl,
    by decide, by decide, beyond.1, beyond.2⟩

/-- The lookup of `updateMovie` on a stream whose first row is a typed movie. -/
theorem updateMovie_of_existing {σ : Type} (run : Runner σ) (s s1 : σ) (update : UpdateBody)
    (oldTitle oldTagline : String) (oldReleased : Int) (rest : List Record)
    (failure : Option String) (k : Nat)
    (hlookup : run s lookupQuery [("id", .int update.ID)] =
      (.ok ⟨[.str oldTitle, .str oldTagline, .int oldReleased] :: rest, failure, k⟩, s1)) :
    updateMovie run (.ok update) s =
      match run s1 (updateQuery update) (updateParams update) with
      | (.error e, s2) =>
        ([.newSession .write, .run lookupQuery [("id", .int update.ID)],
          .run (updateQuery update) (updateParams update),
          .json 500 (errorBody e), .close], s2)
      | (.ok _, s2) =>
        ([.newSession .write, .run lookupQuery [("id", .int update.ID)],
          .run (updateQuery update) (updateParams update),
          .json 200 (H "message"
            (.str (updateMessage update oldTitle oldTagline oldReleased))),
          .close], s2) := by
  simp only [updateMovie, hlookup, Stream.cursor, Result.Next, Result.Record, oldValues,
    mustString, mustInt64, column, GetByIndex, List.get?, asString, asInt64]
  rcases run s1 (updateQuery update) (updateParams update) with ⟨r, s2⟩
  cases r <;> simp

/-- C4, amended: an update request on an existing movie whose stored title
and tagline are strings and whose stored release year is an integer, with a
non-empty tagline, an empty title and a zero release year, sends the write query
`MATCH (n:Movie) WHERE ID(n) = $id SET n.tagline = $newTagline` with the
parameters `id` and `newTagline` only, and, the store accepting that query,
answers 200 with the message made of the header
`Movie details updated for ID <id>:` and the single line
`- Tagline changed from "<old tagline>" to "<new tagline>"`. -/
theorem tagline_only_update {σ : Type} (run : Runner σ) (s s1 s2 : σ) (update : UpdateBody)
    (oldTitle oldTagline : String) (oldReleased : Int) (rest : List Record)
    (failure : Option String) (k : Nat) (written : Stream)
    (htitle : update.Title = "") (htagline : update.Tagline ≠ "")
    (hreleased : update.Released = 0)
    (hlookup : run s lookupQuery [("id", .int update.ID)] =
      (.ok ⟨[.str oldTitle, .str oldTagline, .int oldReleased] :: rest, failure, k⟩, s1))
    (hwrite : run s1 "MATCH (n:Movie) WHERE ID(n) = $id SET n.tagline = $newTagline"
      [("id", .int update.ID), ("newTagline", .str update.Tagline)] = (.ok written, s2)) :
    updateMovie run (.ok update) s =
      ([.newSession .write, .run lookupQuery [("id", .int update.ID)],
        .run "MATCH (n:Movie) WHERE ID(n) = $id SET n.tagline = $newTagline"
          [("id", .int update.ID), ("newTagline", .str update.Tagline)],
        .json 200 (H "message" (.str
          ("Movie details updated for ID " ++ fmtInt update.ID ++ ":" ++
            ("\n- Tagline changed from \"" ++ oldTagline ++ "\" to \"" ++
              update.Tagline ++ "\"")))),
        .close], s2) := by
  have hq : updateQuery update =
      "MATCH (n:Movie) WHERE ID(n) = $id SET n.tagline = $newTagline" := by
    simp only [updateQuery, htitle, htagline, hreleased, ne_eq, not_true_eq_false,
      not_false_eq_true, if_true, if_false]
    decide
  have hp : updateParams update =
      [("id", .int update.ID), ("newTagline", .str update.Tagline)] := by
    simp only [updateParams, htitle, htagline, hreleased, ne_eq, not_true_eq_false,
      not_false_eq_true, if_true, if_false]
    simp [Params.set]
  have hm : updateMessage update oldTitle oldTagline oldReleased =
      "Movie details updated for ID " ++ fmtInt update.ID ++ ":" ++
        ("\n- Tagline changed from \"" ++ oldTagline ++ "\" to \"" ++
          update.Tagline ++ "\"") := by
    simp only [updateMessage, htitle, htagline, hreleased, ne_eq, not_true_eq_false,
      not_false_eq_true, if_true, if_false]
  rw [updateMovie_of_existing run s s1 update oldTitle oldTagline oldReleased rest failure k
    hlookup, hq, hp, hwrite, hm]

/-- Witness of C4: the scenario of the specification, movie 7 "Inception"
with tagline "Dreams within dreams" updated to "New tagline". -/
theorem tagline_only_update_witness :
    (⟨7, "", "New tagline", 0⟩ : UpdateBody).Title = "" ∧
    (⟨7, "", "New tagline", 0⟩ : UpdateBody).Tagline ≠ "" ∧
    (⟨7, "", "New tagline", 0⟩ : UpdateBody).Released = 0 ∧
    updateMovie
      (fixedStore ⟨[[.str "Inception", .str "Dreams within dreams", .int 2010]], none, 0⟩)
      (.ok ⟨7, "", "New tagline", 0⟩) () =
      ([.newSession .write, .run lookupQuery [("id", .int 7)],
        .run "MATCH (n:Movie) WHERE ID(n) = $id SET n.tagline = $newTagline"
          [("id", .int 7), ("newTagline", .str "New tagline")],
        .json 200 (H "message" (.str
          ("Movie details updated for ID 7:" ++
            "\n- Tagline changed from \"Dreams within dreams\" to \"New tagline\""))),
        .close], ()) :=
  ⟨rfl, by decide, rfl,
    tagline_only_update
      (fixedStore ⟨[[.str "Inception", .str "Dreams within dreams", .int 2010]], none, 0⟩)
      () () () ⟨7, "", "New tagline", 0⟩ "Inception" "Dreams within dreams" 2010 [] none 0
      ⟨[[.str "Inception", .str "Dreams within dreams", .int 2010]], none, 0⟩
      rfl (by decide) rfl rfl rfl⟩

/-- C8: when the lookup query of `updateMovie` yields no row, the handler
writes the single response 404 `{"error": "Movie not found"}` and the lookup
is the only query it sends: no write query reaches the store. -/
theorem update_of_absent_movie_is_404 {σ : Type} (run : Runner σ) (s s1 : σ)
    (update : UpdateBody) (failure : Option String) (k : Nat)
    (hlookup : run s lookupQuery [("id", .int update.ID)] = (.ok ⟨[], failure, k⟩, s1)) :
    updateMovie run (.ok update) s =
      ([.newSession .write, .run lookupQuery [("id", .int update.ID)],
        .json 404 (errorBody "Movie not found"), .close], s1) ∧
    responses (updateMovie run (.ok update) s).1 =
      [(404, some (errorBody "Movie not found"))] ∧
    queries (updateMovie run (.ok update) s).1 =
      [(lookupQuery, [("id", .int update.ID)])] := by
  have h : updateMovie run (.ok update) s =
      ([.newSession .write, .run lookupQuery [("id", .int update.ID)],
        .json 404 (errorBody "Movie not found"), .close], s1) := by
    simp [updateMovie, hlookup, Stream.cursor, Result.Next]
  refine ⟨h, ?_, ?_⟩ <;> simp [h, responses, queries]

/-- Witness of C8: an update of movie 7 on a store without nodes. -/
theorem update_of_absent_movie_is_404_witness :
    emptyStore () lookupQuery [("id", .int 7)] = (.ok ⟨[], none, 0⟩, ()) ∧
    updateMovie emptyStore (.ok ⟨7, "Heat", "", 1995⟩) () =
      ([.newSession .write, .run lookupQuery [("id", .int 7)],
        .json 404 (errorBody "Movie not found"), .close], ()) ∧
    responses (updateMovie emptyStore (.ok ⟨7, "Heat", "", 1995⟩) ()).1 =
      [(404, some (errorBody "Movie not found"))] ∧
    queries (updateMovie emptyStore (.ok ⟨7, "Heat", "", 1995⟩) ()).1 =
      [(lookupQuery, [("id", .int 7)])] :=
  ⟨rfl, update_of_absent_movie_is_404 emptyStore () () ⟨7, "Heat", "", 1995⟩ none 0 rfl⟩

/-- The query text `updateMovie` assembles is the one described: one
assignment per supplied field, in the order title, tagline, released. -/
theorem updateQuery_eq_described (update : UpdateBody) :
    updateQuery update = describedQuery update := by
  by_cases h1 : update.Title = "" <;> by_cases h2 : update.Tagline = "" <;>
    by_cases h3 : update.Released = 0 <;>
    simp only [updateQuery, describedQuery, assignedFields, h1, h2, h3, ne_eq,
      not_true_eq_false, not_false_eq_true, if_true, if_false] <;>
    rfl

/-- The parameter map `updateMovie` assembles is the one described. -/
theorem updateParams_eq_described (update : UpdateBody) :
    updateParams update = describedParams update := by
  by_cases h1 : update.Title = "" <;> by_cases h2 : update.Tagline = "" <;>
    by_cases h3 : update.Released = 0 <;>
    simp [updateParams, describedParams, assignedFields, h1, h2, h3, Params.set]

/-- The queries `updateMovie` sends once the lookup found a typed movie row. -/
theorem queries_of_update {σ : Type} (run : Runner σ) (s s1 : σ) (update : UpdateBody)
    (oldTitle oldTagline : String) (oldReleased : Int) (rest : List Record)
    (failure : Option String) (k : Nat)
    (hlookup : run s lookupQuery [("id", .int update.ID)] =
      (.ok ⟨[.str oldTitle, .str oldTagline, .int oldReleased] :: rest, failure, k⟩, s1)) :
    queries (updateMovie run (.ok update) s).1 =
      [(lookupQuery, [("id", .int update.ID)]), (updateQuery update, updateParams update)] := by
  rw [updateMovie_of_existing run s s1 update oldTitle oldTagline oldReleased rest failure k
    hlookup]
  rcases run s1 (updateQuery update) (updateParams update) with ⟨r, s2⟩
  cases r <;> simp [queries]

/-- C5: for every update request on an existing movie, the write query sent
by `updateMovie` is `MATCH (n:Movie) WHERE ID(n) = $id SET ` followed by the
assignments of exactly the fields that are non-empty / non-zero, in the order
title, tagline, released, joined by `", "` with nothing after the last one;
its parameter map is `id` followed by exactly the keys `newTitle`,
`newTagline`, `newReleased` of the assigned fields, bound to the request's values. -/
theorem write_query_assigns_exactly_the_supplied_fields {σ : Type} (run : Runner σ)
    (s s1 : σ) (update : UpdateBody) (oldTitle oldTagline : String) (oldReleased : Int)
    (rest : List Record) (failure : Option String) (k : Nat)
    (hlookup : run s lookupQuery [("id", .int update.ID)] =
      (.ok ⟨[.str oldTitle, .str oldTagline, .int oldReleased] :: rest, failure, k⟩, s1)) :
    queries (updateMovie run (.ok update) s).1 =
      [(lookupQuery, [("id", .int update.ID)]),
       (describedQuery update, describedParams update)] := by
  rw [queries_of_update run s s1 update oldTitle oldTagline oldReleased rest failure k hlookup,
    updateQuery_eq_described, updateParams_eq_described]

/-- Witness of C5: an update of movie 7 that supplies a title and a release
year but no tagline. -/
theorem write_query_assigns_exactly_the_supplied_fields_witness :
    fixedStore ⟨[[.str "Inception", .str "Dreams within dreams", .int 2010]], none, 0⟩ ()
      lookupQuery [("id", .int 7)] =
      (.ok ⟨[[.str "Inception", .str "Dreams within dreams", .int 2010]], none, 0⟩, ()) ∧
    queries (updateMovie
      (fixedStore ⟨[[.str "Inception", .str "Dreams within dreams", .int 2010]], none, 0⟩)
      (.ok ⟨7, "Heat", "", 1995⟩) ()).1 =
      [(lookupQuery, [("id", .int 7)]),
       ("MATCH (n:Movie) WHERE ID(n) = $id SET n.title = $newTitle, n.released = $newReleased",
        [("id", .int 7), ("newTitle", .str "Heat"), ("newReleased", .int 1995)])] :=
  ⟨rfl, write_query_assigns_exactly_the_supplied_fields
    (fixedStore ⟨[[.str "Inception", .str "Dreams within dreams", .int 2010]], none, 0⟩)
    () () ⟨7, "Heat", "", 1995⟩ "Inception" "Dreams within dreams" 2010 [] none 0 rfl⟩

/-- C6 fails on the code: on a store that yields no row and no error both
listings answer 200, but the value under `humuus` and under `movies` is the
JSON `null` of a nil slice, not the empty array. -/
theorem empty_listing_is_null_not_empty_array :
    emptyStore () listPeopleQuery [] = (.ok ⟨[], none, 0⟩, ()) ∧
    emptyStore () listMoviesQuery [] = (.ok ⟨[], none, 0⟩, ()) ∧
    responses (getPeople emptyStore ()).1 = [(200, some (H "humuus" Json.null))] ∧
    responses (getMovies emptyStore ()).1 = [(200, some (H "movies" Json.null))] ∧
    (H "humuus" Json.null).field? "humuus" = some Json.null ∧
    (H "movies" Json.null).field? "movies" = some Json.null ∧
    Json.null ≠ Json.arr [] := by
  refine ⟨rfl, rfl, rfl, rfl, rfl, rfl, ?_⟩
  intro h
  cases h

/-- C7 fails on the code: when the result cursor stops with an error instead
of yielding a row, `getMovieByID` first writes 404 and then a second response
500, and `updateMovie` answers with 404 alone; `getMovies` on the same stream
answers with the single 500 the claim describes. -/
theorem cursor_failure_is_answered_with_404 :
    fixedStore ⟨[], some "connection reset by peer", 0⟩ () getQuery [("id", .int 7)] =
      (.ok ⟨[], some "connection reset by peer", 0⟩, ()) ∧
    responses (getMovieByID (fixedStore ⟨[], some "connection reset by peer", 0⟩) "7" ()).1 =
      [(404, some (errorBody "Movie not found")),
       (500, some (errorBody "connection reset by peer"))] ∧
    responses (updateMovie (fixedStore ⟨[], some "connection reset by peer", 0⟩)
      (.ok ⟨7, "", "New tagline", 0⟩) ()).1 =
      [(404, some (errorBody "Movie not found"))] ∧
    responses (getMovies (fixedStore ⟨[], some "connection reset by peer", 0⟩) ()).1 =
      [(500, some (errorBody "connection reset by peer"))] :=
  ⟨rfl, rfl, rfl, rfl⟩

/-! ## Typed and ill-typed rows -/

theorem toList_append {α : Type} (sl : Slice α) (x : α) :
    (sl.append x).toList = sl.toList ++ [x] := by
  cases sl <;> rfl

theorem toList_foldl_append {α : Type} (xs : List α) (sl : Slice α) :
    (xs.foldl Slice.append sl).toList = sl.toList ++ xs := by
  induction xs generalizing sl with
  | nil => simp
  | cons x xs ih => simp [ih, toList_append]

theorem toList_ofList {α : Type} (xs : List α) : (Slice.ofList xs).toList = xs := by
  rw [Slice.ofList, toList_foldl_append]
  rfl

theorem getMoviesRow_of_typed (r : Record) (h : movieRowTyped r = true) :
    getMoviesRow r = .ok (movieOfRow r) := by
  rcases r with _ | ⟨v0, _ | ⟨v1, _ | ⟨v2, _ | ⟨v3, r⟩⟩⟩⟩
  · simp [movieRowTyped, holdsInt] at h
  · cases v0 <;> simp [movieRowTyped, holdsInt] at h
  · cases v0 <;> cases v1 <;> simp [movieRowTyped, holdsInt, holdsString] at h
  · cases v0 <;> cases v1 <;> cases v2 <;> simp [movieRowTyped, holdsInt, holdsString] at h
  · cases v0 with
    | int a =>
      cases v1 with
      | int b =>
        cases v2 with
        | str c =>
          cases v3 with
          | str d => rfl
          | _ => simp [movieRowTyped, holdsInt, holdsString] at h
        | _ => simp [movieRowTyped, holdsInt, holdsString] at h
      | _ => simp [movieRowTyped, holdsInt, holdsString] at h
    | _ => simp [movieRowTyped, holdsInt, holdsString] at h

theorem getMoviesRow_of_untyped (r : Record) (h : movieRowTyped r = false) :
    getMoviesRow r = .error .panicked ∨
      ∃ msg, getMoviesRow r = .error (.returned 500 (errorBody msg)) := by
  rcases r with _ | ⟨v0, r⟩
  · exact Or.inl rfl
  cases v0 with
  | int a =>
    rcases r with _ | ⟨v1, r⟩
    · exact Or.inl rfl
    cases v1 with
    | int b =>
      rcases r with _ | ⟨v2, r⟩
      · exact Or.inl rfl
      cases v2 with
      | str c =>
        rcases r with _ | ⟨v3, r⟩
        · exact Or.inl rfl
        cases v3 with
        | str d => simp [movieRowTyped, holdsInt, holdsString] at h
        | _ => exact Or.inr ⟨_, rfl⟩
      | _ => exact Or.inr ⟨_, rfl⟩
    | _ => exact Or.inr ⟨_, rfl⟩
  | _ => exact Or.inr ⟨_, rfl⟩

theorem getMoviesLoop_of_typed (rows : List Record) (h : ∀ r ∈ rows, movieRowTyped r = true)
    (acc : Slice Movie) :
    getMoviesLoop rows acc = .ok ((rows.map movieOfRow).foldl Slice.append acc) := by
  induction rows generalizing acc with
  | nil => rfl
  | cons r rows ih =>
    have hr := getMoviesRow_of_typed r (h r (by simp))
    simp only [getMoviesLoop, hr, List.map_cons, List.foldl_cons]
    exact ih (fun x hx => h x (by simp [hx])) _

theorem getMoviesLoop_of_untyped (rows : List Record)
    (h : ∃ r ∈ rows, movieRowTyped r = false) (acc : Slice Movie) :
    getMoviesLoop rows acc = .error .panicked ∨
      ∃ msg, getMoviesLoop rows acc = .error (.returned 500 (errorBody msg)) := by
  induction rows generalizing acc with
  | nil => simp at h
  | cons r rows ih =>
    by_cases hr : movieRowTyped r = true
    · have hrow := getMoviesRow_of_typed r hr
      simp only [getMoviesLoop, hrow]
      apply ih
      obtain ⟨x, hx, hxt⟩ := h
      rcases List.mem_cons.mp hx with rfl | hx
      · rw [hr] at hxt; cases hxt
      · exact ⟨x, hx, hxt⟩
    · have hr2 : movieRowTyped r = false := by simpa using hr
      rcases getMoviesRow_of_untyped r hr2 with hrow | ⟨msg, hrow⟩
      · left; simp [getMoviesLoop, hrow]
      · right; exact ⟨msg, by simp [getMoviesLoop, hrow]⟩

theorem getPeopleLoop_of_untyped (rows : List Record)
    (h : ∃ r ∈ rows, personRowTyped r = false) (acc : Slice String) :
    getPeopleLoop rows acc = .error .panicked := by
  induction rows generalizing acc with
  | nil => simp at h
  | cons r rows ih =>
    by_cases hr : personRowTyped r = true
    · have hrow : mustString r 0 = .ok (stringAt r 0) := by
        rcases r with _ | ⟨v0, r⟩
        · simp [personRowTyped, holdsString] at hr
        · cases v0 <;> simp [personRowTyped, holdsString] at hr
          rfl
      simp only [getPeopleLoop, hrow]
      apply ih
      obtain ⟨x, hx, hxt⟩ := h
      rcases List.mem_cons.mp hx with rfl | hx
      · rw [hr] at hxt; cases hxt
      · exact ⟨x, hx, hxt⟩
    · have hrow : mustString r 0 = .error .panicked := by
        rcases r with _ | ⟨v0, r⟩
        · rfl
        · cases v0 <;> first | rfl | simp [personRowTyped, holdsString] at hr
      simp [getPeopleLoop, hrow]

/-- C9: when some row of the result holds a column of an unexpected type,
`getMovies` and `getPeople` each write exactly one response, of status 500
and carrying no list; when every row is well typed and the stream ends
without error, `getMovies` answers 200 with the slice that holds one Movie
per row, in row order, read from columns 0..3 as id, released, tagline, title. -/
theorem ill_typed_row_fails_the_whole_listing {σ : Type} (run : Runner σ) (s s1 s2 : σ)
    (rows prows : List Record) (failure pfailure : Option String) (k pk : Nat)
    (hm : run s listMoviesQuery [] = (.ok ⟨rows, failure, k⟩, s1))
    (hp : run s listPeopleQuery [] = (.ok ⟨prows, pfailure, pk⟩, s2)) :
    ((∃ r ∈ rows, movieRowTyped r = false) →
      responses (getMovies run s).1 = [(500, none)] ∨
        ∃ msg, responses (getMovies run s).1 = [(500, some (errorBody msg))]) ∧
    ((∃ r ∈ prows, personRowTyped r = false) →
      responses (getPeople run s).1 = [(500, none)]) ∧
    ((∀ r ∈ rows, movieRowTyped r = true) → failure = none →
      responses (getMovies run s).1 =
        [(200, some (H "movies" ((Slice.ofList (rows.map movieOfRow)).toJson Movie.toJson)))] ∧
      (Slice.ofList (rows.map movieOfRow)).toList = rows.map movieOfRow) := by
  refine ⟨?_, ?_, ?_⟩
  · intro hbad
    rcases getMoviesLoop_of_untyped rows hbad .nil with hl | ⟨msg, hl⟩
    · left; simp [getMovies, hm, hl, recovered, responses]
    · right; exact ⟨msg, by simp [getMovies, hm, hl, responses]⟩
  · intro hbad
    have hl := getPeopleLoop_of_untyped prows hbad .nil
    simp [getPeople, hp, hl, recovered, responses]
  · intro hall hfail
    subst hfail
    have hl := getMoviesLoop_of_typed rows hall .nil
    refine ⟨?_, toList_ofList _⟩
    simp [getMovies, hm, hl, responses, Slice.ofList]

/-- Witness of C9: a store whose movie rows are well typed and whose second
person row holds a number where the name should be; the person listing fails
as a whole with 500, the movie listing answers 200 with both movies in row order. -/
theorem ill_typed_row_fails_the_whole_listing_witness :
    listingStore () listMoviesQuery [] = (.ok ⟨typedMovieRows, none, 0⟩, ()) ∧
    listingStore () listPeopleQuery [] = (.ok ⟨illTypedPersonRows, none, 0⟩, ()) ∧
    (∃ r ∈ illTypedPersonRows, personRowTyped r = false) ∧
    responses (getPeople listingStore ()).1 = [(500, none)] ∧
    (∀ r ∈ typedMovieRows, movieRowTyped r = true) ∧
    responses (getMovies listingStore ()).1 =
      [(200, some (H "movies" (.arr
        [Movie.toJson ⟨0, 1995, "A crime saga", "Heat"⟩,
         Movie.toJson ⟨1, 2010, "Dreams within dreams", "Inception"⟩])))] ∧
    (Slice.ofList (typedMovieRows.map movieOfRow)).toList = typedMovieRows.map movieOfRow :=
  have bad : ∃ r ∈ illTypedPersonRows, personRowTyped r = false :=
    ⟨[.int 1940], by simp [illTypedPersonRows], rfl⟩
  have good : ∀ r ∈ typedMovieRows, movieRowTyped r = true := by decide
  have h := ill_typed_row_fails_the_whole_listing listingStore () () ()
    typedMovieRows illTypedPersonRows none none 0 0 rfl rfl
  ⟨rfl, rfl, bad, h.2.1 bad, good, (h.2.2 good rfl).1, (h.2.2 good rfl).2⟩

/-! ## Create, then read back, on the graph store -/

/-- C4 as stated fails: movie 7 exists (the lookup yields its row) but has no
title, and the tagline-only update is answered with the bare 500 of the
recovery middleware, no write query being sent; and on a store that refuses
the write query the answer is 500 with the store's message. -/
theorem tagline_update_of_existing_movie_is_500 :
    untitledMovieStore () lookupQuery [("id", .int 7)] =
      (.ok ⟨[[.null, .str "Dreams within dreams", .int 2010]], none, 0⟩, ()) ∧
    updateMovie untitledMovieStore (.ok ⟨7, "", "New tagline", 0⟩) () =
      ([.newSession .write, .run lookupQuery [("id", .int 7)], .close,
        .abortWithStatus 500], ()) ∧
    responses (updateMovie untitledMovieStore (.ok ⟨7, "", "New tagline", 0⟩) ()).1 =
      [(500, none)] ∧
    queries (updateMovie untitledMovieStore (.ok ⟨7, "", "New tagline", 0⟩) ()).1 =
      [(lookupQuery, [("id", .int 7)])] ∧
    writeRefusingStore () lookupQuery [("id", .int 7)] =
      (.ok ⟨[[.str "Inception", .str "Dreams within dreams", .int 2010]], none, 0⟩, ()) ∧
    responses (updateMovie writeRefusingStore (.ok ⟨7, "", "New tagline", 0⟩) ()).1 =
      [(500, some (errorBody "database is read-only"))] :=
  ⟨rfl, rfl, rfl, rfl, rfl, rfl⟩

/-- C10 as stated fails: movie 7 exists (the lookup yields its row) but has
no title, and the update without fields sends no write query: the lookup is
the only query and the answer is the bare 500 of the recovery middleware. -/
theorem empty_update_of_existing_movie_sends_no_write :
    untitledMovieStore () lookupQuery [("id", .int 7)] =
      (.ok ⟨[[.null, .str "Dreams within dreams", .int 2010]], none, 0⟩, ()) ∧
    (⟨7, "", "", 0⟩ : UpdateBody).Title = "" ∧
    (⟨7, "", "", 0⟩ : UpdateBody).Tagline = "" ∧
    (⟨7, "", "", 0⟩ : UpdateBody).Released = 0 ∧
    updateMovie untitledMovieStore (.ok ⟨7, "", "", 0⟩) () =
      ([.newSession .write, .run lookupQuery [("id", .int 7)], .close,
        .abortWithStatus 500], ()) ∧
    queries (updateMovie untitledMovieStore (.ok ⟨7, "", "", 0⟩) ()).1 =
      [(lookupQuery, [("id", .int 7)])] :=
  ⟨rfl, rfl, rfl, rfl, rfl, rfl⟩

/-- C10, amended: for every update request on an existing movie whose stored
title and tagline are strings and whose stored release year is an integer, in
which title and tagline are empty and the release year is zero, `updateMovie`
does not short-circuit: after the lookup it runs on the store a write query
whose text is exactly `MATCH (n:Movie) WHERE ID(n) = $id SET ` with no
assignment (the trim removes nothing) and whose parameter map holds `id`
only; the store state and the response are what that run makes of it: 500
with the store's error, or 200 with the header-only message. -/
theorem update_without_fields_runs_bare_set {σ : Type} (run : Runner σ) (s s1 : σ)
    (update : UpdateBody) (oldTitle oldTagline : String) (oldReleased : Int)
    (rest : List Record) (failure : Option String) (k : Nat)
    (htitle : update.Title = "") (htagline : update.Tagline = "")
    (hreleased : update.Released = 0)
    (hlookup : run s lookupQuery [("id", .int update.ID)] =
      (.ok ⟨[.str oldTitle, .str oldTagline, .int oldReleased] :: rest, failure, k⟩, s1)) :
    updateMovie run (.ok update) s =
      (match run s1 "MATCH (n:Movie) WHERE ID(n) = $id SET " [("id", .int update.ID)] with
      | (.error e, s2) =>
        ([.newSession .write, .run lookupQuery [("id", .int update.ID)],
          .run "MATCH (n:Movie) WHERE ID(n) = $id SET " [("id", .int update.ID)],
          .json 500 (errorBody e), .close], s2)
      | (.ok _, s2) =>
        ([.newSession .write, .run lookupQuery [("id", .int update.ID)],
          .run "MATCH (n:Movie) WHERE ID(n) = $id SET " [("id", .int update.ID)],
          .json 200 (H "message"
            (.str ("Movie details updated for ID " ++ fmtInt update.ID ++ ":"))),
          .close], s2)) ∧
    queries (updateMovie run (.ok update) s).1 =
      [(lookupQuery, [("id", .int update.ID)]),
       ("MATCH (n:Movie) WHERE ID(n) = $id SET ", [("id", .int update.ID)])] ∧
    TrimSuffix "MATCH (n:Movie) WHERE ID(n) = $id SET " ", " =
      "MATCH (n:Movie) WHERE ID(n) = $id SET " := by
  have hq : updateQuery update = "MATCH (n:Movie) WHERE ID(n) = $id SET " := by
    simp only [updateQuery, htitle, htagline, hreleased, ne_eq, not_true_eq_false, if_false]
    decide
  have hp : updateParams update = [("id", .int update.ID)] := by
    simp [updateParams, htitle, htagline, hreleased]
  have hm : updateMessage update oldTitle oldTagline oldReleased =
      "Movie details updated for ID " ++ fmtInt update.ID ++ ":" := by
    simp only [updateMessage, htitle, htagline, hreleased, ne_eq, not_true_eq_false, if_false]
  refine ⟨?_, ?_, by decide⟩
  · rw [updateMovie_of_existing run s s1 update oldTitle oldTagline oldReleased rest failure k
      hlookup, hq, hp, hm]
  · rw [queries_of_update run s s1 update oldTitle oldTagline oldReleased rest failure k
      hlookup, hq, hp]

/-- Witness of the amended C10: an update of movie 7 that supplies no field,
on a store that refuses the write query: the bare SET query is run and its
error comes back as 500. -/
theorem update_without_fields_runs_bare_set_witness :
    (⟨7, "", "", 0⟩ : UpdateBody).Title = "" ∧
    (⟨7, "", "", 0⟩ : UpdateBody).Tagline = "" ∧
    (⟨7, "", "", 0⟩ : UpdateBody).Released = 0 ∧
    writeRefusingStore () lookupQuery [("id", .int 7)] =
      (.ok ⟨[[.str "Inception", .str "Dreams within dreams", .int 2010]], none, 0⟩, ()) ∧
    updateMovie writeRefusingStore (.ok ⟨7, "", "", 0⟩) () =
      ([.newSession .write, .run lookupQuery [("id", .int 7)],
        .run "MATCH (n:Movie) WHERE ID(n) = $id SET " [("id", .int 7)],
        .json 500 (errorBody "database is read-only"), .close], ()) ∧
    queries (updateMovie writeRefusingStore (.ok ⟨7, "", "", 0⟩) ()).1 =
      [(lookupQuery, [("id", .int 7)]),
       ("MATCH (n:Movie) WHERE ID(n) = $id SET ", [("id", .int 7)])] ∧
    TrimSuffix "MATCH (n:Movie) WHERE ID(n) = $id SET " ", " =
      "MATCH (n:Movie) WHERE ID(n) = $id SET " :=
  ⟨rfl, rfl, rfl, rfl, update_without_fields_runs_bare_set writeRefusingStore () ()
    ⟨7, "", "", 0⟩ "Inception" "Dreams within dreams" 2010 [] none 0 rfl rfl rfl rfl⟩

/-! ## Create payloads -/

end MovieApi
